import Mathlib

/-!
Verification of the credential-resolution / client-construction logic
(`bandwidth/client.py`) and the webhook event factory
(`bandwidth_sdk/events.py`) of the python-bandwidth SDK, via a shallow
embedding in Lean 4.

Conventions of the embedding:
* Python strings are `String`; a value that may be `None` is `Option String`.
* Python truthiness of a string is non-emptiness; of an `Option`, `none` and
  `some ("")` are falsy.
* `os.environ` is the `Env` record, the local filesystem (existence and
  INI-parse outcome of config files) is the `FS` record, and the mutable
  module-level variables (`bandwidth.client._global_client` and the
  `bandwidth_sdk` package variables) are the `SdkState` record, threaded
  explicitly.
* `raise` is modelled with `Except`; the two exception classes the resolver
  code raises (`ValueError`, `EnvironmentError`) are the constructors of
  `PyError`.
-/

/-- Decidable equality for `Except`, used to evaluate the resolvers and the
event factory on concrete inputs. -/
instance exceptDecEq {ε α : Type} [DecidableEq ε] [DecidableEq α] :
    DecidableEq (Except ε α) := fun x y =>
  match x, y with
  | .ok a, .ok b =>
    if h : a = b then .isTrue (by rw [h])
    else .isFalse (by intro hc; cases hc; exact h rfl)
  | .error a, .error b =>
    if h : a = b then .isTrue (by rw [h])
    else .isFalse (by intro hc; cases hc; exact h rfl)
  | .ok _, .error _ => .isFalse (by intro hc; cases hc)
  | .error _, .ok _ => .isFalse (by intro hc; cases hc)

namespace Bandwidth

/-- Python truthiness of an optional string: `None` and `''` are falsy. -/
def truthy : Option String → Bool
  | none => false
  | some s => !s.isEmpty

/-- Python truthiness of a plain string: `''` is falsy. -/
def truthyS (s : String) : Bool := !s.isEmpty

/-- The exception classes raised by `bandwidth/client.py`: `ValueError`
(validation / file-missing / config-format / no-configuration failures) and
`EnvironmentError` (partially-set environment or fallback variables). -/
inductive PyError where
  | valueError (msg : String)
  | environmentError (msg : String)
  deriving DecidableEq, Repr

/-- The exception class of an error, ignoring its message. -/
def PyError.isValueError : PyError → Bool
  | .valueError _ => true
  | .environmentError _ => false

/-- Modelled from the spec: the REST client collaborator (`RESTClientObject`,
whose source is not included) is ("constructed with `(principalId,
(secondaryCredential, tertiaryCredential), endpoint?, markupMode?)`"); the
resolver code only constructs and hands off this handle.  `endpoint = none`
means the collaborator's own default endpoint (no `endpoint=` argument
passed); `xml` is the markup-mode flag. -/
structure RESTClientObject where
  principal : Option String
  secondary : Option String
  tertiary : Option String
  endpoint : Option String
  xml : Bool
  deriving DecidableEq, Repr

/-- The slice of `os.environ` the resolvers consult.  `none` means the
variable is absent; `some s` means present with value `s` (possibly `""`). -/
structure Env where
  bandwidth_user_id : Option String
  bandwidth_api_token : Option String
  bandwidth_api_secret : Option String
  bandwidth_account_id : Option String
  bandwidth_username : Option String
  bandwidth_password : Option String
  bandwidth_config_file : Option String
  deriving DecidableEq, Repr

/-- Modelled from the spec: outcome of looking a path up on the filesystem,
covering `file_exists` and `get_creds_from_file` (`bandwidth/utils.py`, not
included): the file is absent, or present but unparsable / missing the
`catapult` section or expected keys (a `configparser.Error`), or parses to
the three credential values. -/
inductive FileResult where
  | absent
  | unparsable
  | creds (first second third : String)
  deriving DecidableEq, Repr

/-- The ambient filesystem, as the resolvers observe it. -/
structure FS where
  read : String → FileResult

/-- Modelled from the spec: the process-wide mutable state — the
`bandwidth.client._global_client` current-client reference and the
module-level fallback variables of the `bandwidth_sdk` package
(`user_id`/`api_token`/`api_secret`, `account_id`/`username`/`password`,
`iris_endpoint`), all initially `None` and set only by explicit
assignment. -/
structure SdkState where
  global_client : Option RESTClientObject
  user_id : Option String
  api_token : Option String
  api_secret : Option String
  account_id : Option String
  username : Option String
  password : Option String
  iris_endpoint : Option String
  deriving DecidableEq, Repr

def HELP_MISSING_ENV_VARS : String :=
  "If BANDWIDTH_USER_ID is defined in the environment, BANDWIDTH_API_TOKEN and BANDWIDTH_API_SECRET must also be defined"

def HELP_MISSING_PARAMS : String :=
  "Creating Client with arguments requires: Client(user_id, token, secret) where user_id, token, secret are from your Catapult account."

/-- Source `_HELP_CONFIG_FORMAT % config_path`. -/
def HELP_CONFIG_FORMAT (p : String) : String :=
  "The config file: <" ++ p ++ "> is either not formatted correctly or is missing values. If that\x27s the wrong config file, make sure BANDWIDTH_CONFIG_FILE is set correctly or not set if you\x27re trying to use .bndsdkrc."

/-- Source `_HELP_CONFIG_FILE_MISSING % config_path`. -/
def HELP_CONFIG_FILE_MISSING (p : String) : String :=
  "The config file specified: <" ++ p ++ "> could not be found. If that\x27s the wrong config file, make sure BANDWIDTH_CONFIG_FILE is set correctly or not set if you\x27re trying to use .bndsdkrc."

def HELP_MISSING_IRIS_ENV_VARS : String :=
  "If BANDWIDTH_ACCOUNT_ID is defined in the environment, BANDWIDTH_USERNAME and BANDWIDTH_PASSWORD must also be defined"

/-- Docstring `Client.__doc__` (abridged to its first line; no claim depends on the
help text beyond concatenation). -/
def Client_doc : String :=
  "Initialize the bandwidth sdk client.  This function will attempt to gather credentials from one of several different locations in the following order: 1) arguments 2) environment variables 3) config file (BANDWIDTH_CONFIG_FILE or .bndsdkrc)."

/-- Docstring `_iris_client.__doc__` (abridged likewise). -/
def iris_client_doc : String :=
  "Initialize the bandwidth sdk client for bandwidth dashboard (aka iris) api calls. Credential locations: 1) arguments 2) environment variables 3) config file 4) bandwidth_sdk module variables."

/-- Source `file_exists(path)` as observed through `FS`. -/
def fileExists (fs : FS) (p : String) : Bool :=
  match fs.read p with
  | .absent => false
  | _ => true

/-- Source `_load_config(config_path)`: parse the config file, converting any
`configparser.Error` into a `ValueError` with the config-format help text
(which always embeds `Client.__doc__`, also when called for the dashboard
client). -/
def load_config (fs : FS) (p : String) : Except PyError (String × String × String) :=
  match fs.read p with
  | .creds a b c => .ok (a, b, c)
  | _ => .error (.valueError (HELP_CONFIG_FORMAT p ++ Client_doc))

/-- Lines 123–124 of `client.py`: construct the `RESTClientObject` for the
telephony API and store it in `_global_client`. -/
def finishClient (u t s : Option String) (st : SdkState) :
    Except PyError (RESTClientObject × SdkState) :=
  let c : RESTClientObject :=
    { principal := u, secondary := t, tertiary := s, endpoint := none, xml := false }
  .ok (c, { st with global_client := some c })

/-- Source `bandwidth.client.Client(user_id, token, secret)`: the telephony
credential resolver (lines 37–124 of `client.py`). -/
def Client (user_id token secret : Option String) (env : Env) (fs : FS)
    (st : SdkState) : Except PyError (RESTClientObject × SdkState) :=
  if truthy user_id || truthy token || truthy secret then
    if truthy user_id && truthy token && truthy secret then
      finishClient user_id token secret st
    else
      .error (.valueError (HELP_MISSING_PARAMS ++ Client_doc))
  else if env.bandwidth_user_id.isSome then
    if truthy env.bandwidth_user_id && truthy env.bandwidth_api_token
        && truthy env.bandwidth_api_secret then
      finishClient env.bandwidth_user_id env.bandwidth_api_token
        env.bandwidth_api_secret st
    else
      .error (.environmentError (HELP_MISSING_ENV_VARS ++ Client_doc))
  else
    match env.bandwidth_config_file with
    | some config_path =>
      if fileExists fs config_path then
        match load_config fs config_path with
        | .ok (u, t, s) => finishClient (some u) (some t) (some s) st
        | .error e => .error e
      else
        .error (.valueError (HELP_CONFIG_FILE_MISSING config_path ++ Client_doc))
    | none =>
      if fileExists fs (".bndsdkrc") then
        match load_config fs (".bndsdkrc") with
        | .ok (u, t, s) => finishClient (some u) (some t) (some s) st
        | .error e => .error e
      else if st.user_id.isSome then
        finishClient st.user_id st.api_token st.api_secret st
      else
        .error (.valueError ("No configuration provided. " ++ Client_doc))

def IRIS_ENDPOINT : String := "https://dashboard.bandwidth.com:443/v1.0/"

/-- Lines 251–256 of `client.py`: resolve the dashboard endpoint
(module-level override, else the hardcoded default) and construct the
markup-mode `RESTClientObject`. -/
def finishIris (a u p : String) (st : SdkState) :
    Except PyError (RESTClientObject × SdkState) :=
  let endpoint := match st.iris_endpoint with
    | some e => e
    | none => IRIS_ENDPOINT
  .ok ({ principal := some a, secondary := some u, tertiary := some p,
         endpoint := some endpoint, xml := true }, st)

/-- Source `bandwidth.client._iris_client(account_id, username, password)`: the
dashboard credential resolver (lines 136–256 of `client.py`).  Note that in
the environment-variable branch the source reads the three variables into
locals `user_id`/`token`/`secret`, validates them, and then discards them:
the module state and the returned handle are built from the (still default,
empty) arguments — the embedding reproduces this faithfully. -/
def iris_client (account_id username password : String) (env : Env) (fs : FS)
    (st : SdkState) : Except PyError (RESTClientObject × SdkState) :=
  if truthyS account_id || truthyS username || truthyS password then
    if truthyS account_id && truthyS username && truthyS password then
      finishIris account_id username password
        { st with account_id := some account_id, username := some username,
                  password := some password }
    else
      .error (.valueError (HELP_MISSING_PARAMS ++ iris_client_doc))
  else if env.bandwidth_account_id.isSome then
    if truthy env.bandwidth_account_id && truthy env.bandwidth_username
        && truthy env.bandwidth_password then
      finishIris account_id username password
        { st with account_id := some account_id, username := some username,
                  password := some password }
    else
      .error (.environmentError (HELP_MISSING_IRIS_ENV_VARS ++ iris_client_doc))
  else
    match env.bandwidth_config_file with
    | some config_path =>
      if fileExists fs config_path then
        match load_config fs config_path with
        | .ok (a, u, p) =>
          finishIris a u p
            { st with account_id := some a, username := some u, password := some p }
        | .error e => .error e
      else
        .error (.valueError (HELP_CONFIG_FILE_MISSING config_path ++ iris_client_doc))
    | none =>
      if fileExists fs (".bndsdkrc") then
        match load_config fs (".bndsdkrc") with
        | .ok (a, u, p) =>
          finishIris a u p
            { st with account_id := some a, username := some u, password := some p }
        | .error e => .error e
      else if st.account_id.isSome then
        if truthy st.account_id && truthy st.username && truthy st.password then
          finishIris (st.account_id.getD ("")) (st.username.getD ("")) (st.password.getD ("")) st
        else
          .error (.environmentError (HELP_MISSING_ENV_VARS ++ iris_client_doc))
      else
        .error (.valueError ("No configuration provided. " ++ iris_client_doc))

/-- Source `bandwidth.client.set_client(client)`: replace `_global_client`,
returning the previous value. -/
def set_client (c : Option RESTClientObject) (st : SdkState) :
    Option RESTClientObject × SdkState :=
  (st.global_client, { st with global_client := c })

/-- Source `bandwidth.client.get_client()`: return `_global_client` if it is truthy
(a client handle always is), else resolve a fresh client with no explicit
arguments. -/
def get_client (env : Env) (fs : FS) (st : SdkState) :
    Except PyError (RESTClientObject × SdkState) :=
  match st.global_client with
  | some c => .ok (c, st)
  | none => Client none none none env fs st

end Bandwidth

namespace BandwidthSdk

/-!
Embedding of the webhook event layer (`bandwidth_sdk/events.py`).  A payload
(a Python `dict` of string keys and values) is an association list with
dict-style `get` / `set` / key-removal operations; an event instance is its
variant (its Python class) together with the attributes `setattr` assigned
in `EventType.__init__`.
-/

/-- Modelled from the spec: `from_api` (`bandwidth_sdk/utils.py`, not
included) normalizes wire keys ("from whatever casing/naming convention the
wire format uses into the convention this system's field names use") — a pure
camelCase-to-snake_case rewriting of every key, applied uniformly. -/
def camelToSnake (s : String) : String :=
  String.mk (s.data.foldl
    (fun acc c => if c.isUpper then acc ++ ['_', c.toLower] else acc ++ [c]) [])

/-- Python `dict.get(k)`: first value stored under `k`. -/
def dictGet (l : List (String × String)) (k : String) : Option String :=
  (l.find? (fun p => p.1 = k)).map (·.2)

/-- Python `dict[k] = v`: overwrite the value under `k`, or append the pair. -/
def dictSet (l : List (String × String)) (k v : String) : List (String × String) :=
  if l.any (fun p => p.1 = k) then
    l.map (fun p => if p.1 = k then (k, v) else p)
  else
    l ++ [(k, v)]

/-- Python `dict.pop(k)`: remove the key. -/
def dictDrop (l : List (String × String)) (k : String) : List (String × String) :=
  l.filter (fun p => p.1 ≠ k)

/-- Source `from_api` applied to a payload: normalize every key. -/
def from_api (l : List (String × String)) : List (String × String) :=
  l.map (fun p => (camelToSnake p.1, p.2))

/-- The fifteen concrete event classes of `events.py`. -/
inductive EventVariant where
  | hangup | answer | incomingcall | gather | speak | playback | errorCall
  | timeout | recording | sms | conference | conferenceMember
  | conferenceSpeak | conferencePlayback | dtmf
  deriving DecidableEq, Repr

/-- The `_fields` frozenset of each event class, copied from the source. -/
def fieldsOf : EventVariant → List String
  | .incomingcall => ["call_id", "event_type", "from_", "to", "call_uri",
      "call_state", "time", "application_id", "tag"]
  | .answer => ["call_id", "event_type", "from_", "to", "call_uri",
      "call_state", "time", "application_id", "tag"]
  | .hangup => ["call_id", "event_type", "from_", "to", "call_uri",
      "call_state", "time", "cause", "tag"]
  | .playback => ["call_id", "event_type", "from_", "to", "call_uri", "tag", "time"]
  | .gather => ["call_id", "event_type", "state", "digits", "tag", "time",
      "gather_id", "reason"]
  | .dtmf => ["event_type", "call_id", "call_uri", "time", "dtmf_digit",
      "dtmf_duration", "tag"]
  | .speak => ["call_id", "event_type", "status", "state", "call_uri", "tag", "time"]
  | .errorCall => ["call_id", "event_type", "from_", "to", "call_uri",
      "call_state", "time", "tag"]
  | .timeout => ["call_id", "event_type", "from_", "to", "call_uri", "time", "tag"]
  | .recording => ["call_id", "event_type", "recording_id", "recording_uri",
      "state", "status", "start_time", "end_time", "tag"]
  | .sms => ["event_type", "direction", "message_id", "message_uri", "from_",
      "to", "text", "application_id", "time", "state"]
  | .conference => ["event_type", "conference_id", "conference_uri", "status",
      "created_time", "completed_time"]
  | .conferenceMember => ["event_type", "conference_id", "call_id",
      "active_members", "hold", "member_id", "member_uri", "mute", "state", "time"]
  | .conferencePlayback => ["event_type", "conference_id", "conference_uri",
      "status", "time"]
  | .conferenceSpeak => ["event_type", "conference_id", "conference_uri",
      "status", "time"]

/-- The class-level attribute names each class declares (all defaulted to
`None` in the source), inherited ones included (`call_id` from `EventType`,
`conference_id` from `ConferenceEventMixin`). -/
def classAttrsOf : EventVariant → List String
  | .incomingcall => ["call_id", "event_type", "from_", "to", "call_uri",
      "call_state", "application_id", "time", "tag"]
  | .answer => ["call_id", "event_type", "from_", "to", "call_uri",
      "call_state", "application_id", "time", "tag"]
  | .hangup => ["call_id", "event_type", "from_", "to", "call_uri",
      "call_state", "cause", "time", "tag"]
  | .playback => ["call_id", "event_type", "call_uri", "status", "time", "tag"]
  | .gather => ["call_id", "event_type", "time", "reason", "gather_id",
      "state", "digits", "tag"]
  | .dtmf => ["call_id", "event_type", "call_uri", "time", "dtmf_digit",
      "dtmf_duration", "tag"]
  | .speak => ["call_id", "event_type", "call_uri", "status", "state", "time", "tag"]
  | .errorCall => ["call_id", "event_type", "from_", "to", "call_uri",
      "call_state", "time", "tag"]
  | .timeout => ["call_id", "event_type", "from_", "to", "call_uri", "time", "tag"]
  | .recording => ["call_id", "event_type", "recording_id", "recording_uri",
      "state", "status", "start_time", "end_time", "tag"]
  | .sms => ["call_id", "event_type", "direction", "message_id", "message_uri",
      "from_", "to", "text", "application_id", "time", "state"]
  | .conference => ["call_id", "conference_id", "event_type", "conference_uri",
      "status", "created_time", "completed_time"]
  | .conferenceMember => ["call_id", "conference_id", "event_type",
      "active_members", "hold", "member_id", "member_uri", "mute", "state", "time"]
  | .conferencePlayback => ["call_id", "conference_id", "event_type",
      "conference_uri", "status", "time"]
  | .conferenceSpeak => ["call_id", "conference_id", "event_type",
      "conference_uri", "status", "time"]

/-- Source `EventType.__init__(**kwargs)`: pop `from`; if its value is truthy,
store it under `from_`; then `setattr` each pair whose key is in the
class's `_fields` set.  Returns the list of assigned attributes. -/
def eventInit (fields : List String) (kw : List (String × String)) :
    List (String × String) :=
  let fromv := dictGet kw ("from")
  let kw1 := dictDrop kw ("from")
  let kw2 := match fromv with
    | some v => if !v.isEmpty then dictSet kw1 ("from_") v else kw1
    | none => kw1
  kw2.filter (fun p => decide (p.1 ∈ fields))

/-- An event instance: its class and the attributes assigned by
`EventType.__init__`. -/
structure EventInstance where
  variant : EventVariant
  attrs : List (String × String)
  deriving DecidableEq, Repr

/-- Python attribute read with the class defaults: an assigned attribute has
its value, a declared-but-unassigned one is `None` — both are `none` /
`some` here (every class default in the source is `None`). -/
def EventInstance.getAttr (e : EventInstance) (name : String) : Option String :=
  dictGet e.attrs name

/-- Python `hasattr(e, name)`: the attribute exists when assigned in `__init__` or
declared on the class. -/
def EventInstance.hasAttr (e : EventInstance) (name : String) : Bool :=
  e.attrs.any (fun p => p.1 = name) || decide (name ∈ classAttrsOf e.variant)

/-- Source `PlaybackCallEvent.done` / `SpeakCallEvent.done`: `self.status == 'done'`. -/
def EventInstance.done (e : EventInstance) : Bool :=
  e.getAttr ("status") == some ("done")

/-- The `_events` registry (line 305 of `events.py`). -/
def eventsRegistry : List (String × EventVariant) :=
  [("hangup", .hangup), ("answer", .answer), ("incomingcall", .incomingcall),
   ("gather", .gather), ("speak", .speak), ("playback", .playback),
   ("error", .errorCall), ("timeout", .timeout), ("recording", .recording),
   ("sms", .sms), ("conference", .conference),
   ("conference-member", .conferenceMember),
   ("conference-speak", .conferenceSpeak),
   ("conference-playback", .conferencePlayback), ("dtmf", .dtmf)]

/-- Source `_events.get(key)`. -/
def registryGet (k : String) : Option EventVariant :=
  (eventsRegistry.find? (fun p => p.1 = k)).map (·.2)

/-- Source `Event.create(**kwargs)` (the keyword-arguments path; the byte-string
path only prepends a JSON decode producing the same mapping): normalize the
keys, look the discriminator up (defaulting to `""` when absent), and build
the variant, or raise `ValueError('Unknown event {}'.format(dict))` — the
error carries the offending normalized payload. -/
def Event.create (kwargs : List (String × String)) :
    Except (List (String × String)) EventInstance :=
  let event_as_dict := from_api kwargs
  match registryGet ((dictGet event_as_dict ("event_type")).getD ("")) with
  | some v => .ok ⟨v, eventInit (fieldsOf v) event_as_dict⟩
  | none => .error event_as_dict

end BandwidthSdk


namespace Bandwidth

/-- Convenient notation-free count of truthy explicit arguments of `Client`. -/
def numTruthy (u t s : Option String) : Nat :=
  (if truthy u then 1 else 0) + (if truthy t then 1 else 0) + (if truthy s then 1 else 0)

/-- Count of non-empty explicit arguments of `iris_client`. -/
def numTruthyS (a b c : String) : Nat :=
  (if truthyS a then 1 else 0) + (if truthyS b then 1 else 0) + (if truthyS c then 1 else 0)

/-- Replace the `_global_client` component of a resolver outcome; used to
state that `iris_client` neither reads nor writes that component. -/
def withG (g : Option RESTClientObject) :
    Except PyError (RESTClientObject × SdkState) →
    Except PyError (RESTClientObject × SdkState)
  | .ok (c, st) => .ok (c, { st with global_client := g })
  | .error e => .error e

/-- Empty ambient environment: no relevant variables set. -/
def env0 : Env := ⟨none, none, none, none, none, none, none⟩

/-- Filesystem on which every path is absent. -/
def fs0 : FS := ⟨fun _ => .absent⟩

/-- Initial module state: every module-level variable is `None`. -/
def st0 : SdkState := ⟨none, none, none, none, none, none, none, none⟩

/-- Environment with the three dashboard variables set and non-empty. -/
def envC1 : Env :=
  { env0 with bandwidth_account_id := some ("acct"), bandwidth_username := some ("user"),
              bandwidth_password := some ("pass") }

/-- Environment with only `BANDWIDTH_CONFIG_FILE` set. -/
def envC9 : Env := { env0 with bandwidth_config_file := some ("/etc/nope.cfg") }

/-- The handle `Client (some ("x")) (some ("y")) (some ("z"))` constructs. -/
def handleXYZ : RESTClientObject :=
  { principal := some ("x"), secondary := some ("y"), tertiary := some ("z"),
    endpoint := none, xml := false }

end Bandwidth

namespace BandwidthSdk

/-- The event the factory builds from
`{"eventType": "hangup", "callId": "c1", "extraneousField": "x"}`. -/
def hangupSample : EventInstance :=
  ⟨.hangup, [("event_type", "hangup"), ("call_id", "c1")]⟩

/-- The event the factory builds from
`{"eventType": "incomingcall", "from": "+15551234567"}`. -/
def incomingSample : EventInstance :=
  ⟨.incomingcall, [("event_type", "incomingcall"), ("from_", "+15551234567")]⟩

/-- The event the factory builds from
`{"eventType": "playback", "status": "done"}`. -/
def playbackSample : EventInstance :=
  ⟨.playback, [("event_type", "playback")]⟩

end BandwidthSdk

namespace BandwidthSdk

lemma find?_mapReplace (l : List (String × String)) (k v : String)
    (h : l.any (fun p => p.1 = k) = true) :
    (l.map (fun p => if p.1 = k then (k, v) else p)).find?
      (fun p => p.1 = k) = some (k, v) := by
  induction l with
  | nil => simp at h
  | cons p t ih =>
    by_cases hp : p.1 = k
    · simp [hp]
    · rw [List.map_cons, if_neg hp, List.find?_cons_of_neg _ (by simpa using hp)]
      exact ih (by simpa [hp] using h)

/-- Dict write/read agreement: `d[k] = v` followed by `d.get(k)` yields `v`. -/
lemma dictGet_dictSet (l : List (String × String)) (k v : String) :
    dictGet (dictSet l k v) k = some v := by
  unfold dictGet dictSet
  by_cases hany : l.any (fun p => p.1 = k) = true
  · rw [if_pos hany, find?_mapReplace l k v hany]
    rfl
  · rw [if_neg hany, List.find?_append]
    have hnone : l.find? (fun p => decide (p.1 = k)) = none := by
      rw [List.find?_eq_none]
      intro x hx hpx
      exact hany (List.any_eq_true.2 ⟨x, hx, hpx⟩)
    rw [hnone]
    simp

lemma find?_filterKeys (l : List (String × String)) (fields : List String)
    (k : String) (hk : k ∈ fields) :
    (l.filter (fun p => decide (p.1 ∈ fields))).find? (fun p => decide (p.1 = k))
      = l.find? (fun p => decide (p.1 = k)) := by
  induction l with
  | nil => rfl
  | cons p t ih =>
    rw [List.filter_cons]
    by_cases hp : p.1 = k
    · rw [if_pos (by simp [hp, hk]), List.find?_cons_of_pos _ (by simp [hp]),
        List.find?_cons_of_pos _ (by simp [hp])]
    · by_cases hmem : p.1 ∈ fields
      · rw [if_pos (by simp [hmem]), List.find?_cons_of_neg _ (by simp [hp]),
          List.find?_cons_of_neg _ (by simp [hp])]
        exact ih
      · rw [if_neg (by simp [hmem]), List.find?_cons_of_neg _ (by simp [hp])]
        exact ih

/-- Filtering on a key set does not change lookups of keys in the set. -/
lemma dictGet_filter (l : List (String × String)) (fields : List String)
    (k : String) (hk : k ∈ fields) :
    dictGet (l.filter (fun p => decide (p.1 ∈ fields))) k = dictGet l k := by
  unfold dictGet
  rw [find?_filterKeys l fields k hk]

/-- Removing one key does not change lookups of another. -/
lemma dictGet_dictDrop (l : List (String × String)) (k kk : String)
    (h : k ≠ kk) :
    dictGet (dictDrop l kk) k = dictGet l k := by
  unfold dictGet dictDrop
  induction l with
  | nil => rfl
  | cons p t ih =>
    rw [List.filter_cons]
    by_cases hp : p.1 = k
    · have hne : p.1 ≠ kk := by rw [hp]; exact h
      rw [if_pos (by simp [hne]), List.find?_cons_of_pos _ (by simp [hp]),
        List.find?_cons_of_pos _ (by simp [hp])]
    · by_cases hkk : p.1 = kk
      · rw [if_neg (by simp [hkk]), List.find?_cons_of_neg _ (by simp [hp])]
        exact ih
      · rw [if_pos (by simp [hkk]), List.find?_cons_of_neg _ (by simp [hp]),
          List.find?_cons_of_neg _ (by simp [hp])]
        exact ih

/-- Every attribute `EventType.__init__` assigns has its name in the
`_fields` set it was given. -/
lemma eventInit_keys (fields : List String) (kw : List (String × String)) :
    ∀ p ∈ eventInit fields kw, p.1 ∈ fields := by
  intro p hp
  unfold eventInit at hp
  have := List.mem_filter.1 hp
  simpa using this.2

/-- Unfolding `Event.create` on a successful construction. -/
lemma create_ok (kwargs : List (String × String)) (e : EventInstance)
    (h : Event.create kwargs = .ok e) :
    ∃ v, registryGet ((dictGet (from_api kwargs) ("event_type")).getD ("")) = some v ∧
      e = ⟨v, eventInit (fieldsOf v) (from_api kwargs)⟩ := by
  simp only [Event.create] at h
  split at h
  · next v hreg =>
    cases h
    exact ⟨v, hreg, rfl⟩
  · next hreg => simp at h

end BandwidthSdk

namespace BandwidthSdk

/-- C4: for every `Event.create` construction, the set of attributes
assigned onto the new event is a subset of the variant's declared `_fields`
set, and every payload key outside that set is dropped without error; in
particular `{"eventType": "hangup", "callId": "c1", "extraneousField": "x"}`
produces a Hangup-variant event whose `call_id` is `"c1"` and which carries
no attribute for the extraneous key (neither under its wire name nor its
normalized name). -/
theorem event_attrs_subset_declared_fields :
    (∀ (kwargs : List (String × String)) (e : EventInstance),
        Event.create kwargs = .ok e → ∀ p ∈ e.attrs, p.1 ∈ fieldsOf e.variant)
    ∧ Event.create [("eventType", "hangup"), ("callId", "c1"), ("extraneousField", "x")]
        = .ok hangupSample
    ∧ hangupSample.getAttr ("call_id") = some ("c1")
    ∧ hangupSample.hasAttr ("extraneous_field") = false
    ∧ hangupSample.hasAttr ("extraneousField") = false := by
  refine ⟨?_, by decide, by decide, by decide, by decide⟩
  intro kwargs e h p hp
  obtain ⟨v, hreg, rfl⟩ := create_ok kwargs e h
  exact eventInit_keys _ _ p hp

/-- Witness for the C4 theorem: instantiated at the hangup payload, the
assigned attribute `("call_id", "c1")` has its key among the Hangup
variant's declared fields. -/
theorem event_attrs_subset_declared_fields_witness :
    ("call_id", "c1").1 ∈ fieldsOf hangupSample.variant :=
  event_attrs_subset_declared_fields.1
    [("eventType", "hangup"), ("callId", "c1"), ("extraneousField", "x")]
    hangupSample (by decide) ("call_id", "c1") (by decide)

/-- C5: `Event.create` fails — returning the offending normalized payload,
as `ValueError('Unknown event {}')` does — whenever the normalized payload's
discriminator is not a registered key; an absent `event_type` key defaults
the discriminator to `""`, which is unregistered; and no event is ever
constructed for an unregistered discriminator. -/
theorem unknown_event_type_fails :
    (∀ kwargs : List (String × String),
        (dictGet (from_api kwargs) ("event_type")).getD ("") ∉ eventsRegistry.map Prod.fst →
        Event.create kwargs = .error (from_api kwargs))
    ∧ (∀ (kwargs : List (String × String)) (e : EventInstance),
        Event.create kwargs = .ok e →
        (dictGet (from_api kwargs) ("event_type")).getD ("") ∈ eventsRegistry.map Prod.fst)
    ∧ ("" : String) ∉ eventsRegistry.map Prod.fst
    ∧ (∀ kwargs : List (String × String),
        dictGet (from_api kwargs) ("event_type") = none →
        Event.create kwargs = .error (from_api kwargs)) := by
  have hnone : ∀ k : String, k ∉ eventsRegistry.map Prod.fst → registryGet k = none := by
    intro k hk
    have hfind : eventsRegistry.find? (fun p => decide (p.1 = k)) = none := by
      rw [List.find?_eq_none]
      intro x hx hpx
      exact hk (List.mem_map.2 ⟨x, hx, by simpa using hpx⟩)
    simp [registryGet, hfind]
  have herr : ∀ kwargs : List (String × String),
      (dictGet (from_api kwargs) ("event_type")).getD ("") ∉ eventsRegistry.map Prod.fst →
      Event.create kwargs = .error (from_api kwargs) := by
    intro kwargs hk
    have h0 := hnone _ hk
    simp [Event.create, h0]
  have hemp : ("" : String) ∉ eventsRegistry.map Prod.fst := by decide
  refine ⟨herr, ?_, hemp, ?_⟩
  · intro kwargs e h
    obtain ⟨v, hreg, rfl⟩ := create_ok kwargs e h
    unfold registryGet at hreg
    cases hfind : eventsRegistry.find? (fun p => decide
        (p.1 = (dictGet (from_api kwargs) ("event_type")).getD (""))) with
    | none => rw [hfind] at hreg; cases hreg
    | some pr =>
      have hpred := List.find?_some hfind
      have hmem := List.mem_of_find?_eq_some hfind
      exact List.mem_map.2 ⟨pr, hmem, by simpa using hpred⟩
  · intro kwargs h0
    apply herr
    rw [h0]
    exact hemp

/-- Witness for the C5 theorem: the payload `{"eventType": "bogus"}` makes
`Event.create` fail with the normalized payload as the error. -/
theorem unknown_event_type_fails_witness :
    Event.create [("eventType", "bogus")] = .error [("event_type", "bogus")] :=
  unknown_event_type_fails.1 [("eventType", "bogus")] (by decide)

/-- Counterexample to C6 as stated: `EventType.__init__` renames `from` only
when its value is truthy, so a payload whose `from` key holds `""` is
dropped entirely — the constructed IncomingCall event's `from_` is `None`
(the class default), which is not the payload's `from` value `""`, even
though `from_` is a declared field of the variant. -/
theorem empty_from_not_renamed :
    Event.create [("eventType", "incomingcall"), ("from", "")]
      = .ok ⟨.incomingcall, [("event_type", "incomingcall")]⟩
    ∧ dictGet (from_api [("eventType", "incomingcall"), ("from", "")]) ("from") = some ("")
    ∧ ("from_") ∈ fieldsOf EventVariant.incomingcall
    ∧ (⟨.incomingcall, [("event_type", "incomingcall")]⟩ : EventInstance).getAttr ("from_")
        ≠ some ("") := by decide

/-- C6, amended: whenever the normalized payload's `from` key holds a
non-empty value, that value is renamed to `from_` before assignment, so the
constructed event's `from_` attribute equals it (when `from_` is a declared
field of the variant); an empty `from` value is dropped instead. -/
theorem nonempty_from_renamed (kwargs : List (String × String))
    (e : EventInstance) (v : String)
    (hok : Event.create kwargs = .ok e)
    (hfrom : dictGet (from_api kwargs) ("from") = some v)
    (hne : v ≠ "")
    (hfield : ("from_") ∈ fieldsOf e.variant) :
    e.getAttr ("from_") = some v := by
  obtain ⟨w, hreg, rfl⟩ := create_ok kwargs e hok
  have hv : v.isEmpty = false := by
    cases hemp : v.isEmpty
    · rfl
    · exact absurd ((String.isEmpty_iff v).1 hemp) hne
  show dictGet (eventInit (fieldsOf w) (from_api kwargs)) ("from_") = some v
  unfold eventInit
  rw [hfrom]
  simp only [hv, Bool.not_false, if_true]
  rw [dictGet_filter _ _ _ hfield, dictGet_dictSet]

/-- Witness for the amended C6 theorem: an incomingcall payload carrying
`from = "+15551234567"` yields an event whose `from_` equals that number. -/
theorem nonempty_from_renamed_witness :
    incomingSample.getAttr ("from_") = some ("+15551234567") :=
  nonempty_from_renamed [("eventType", "incomingcall"), ("from", "+15551234567")]
    incomingSample ("+15551234567") (by decide) (by decide) (by decide) (by decide)

/-- C10: `PlaybackCallEvent` declares a `status` class attribute and a
`done` property defined as `status == 'done'`, but `status` is not in its
`_fields` set, so every factory-built playback event has `status == None`
and `done == False`, whatever the payload says. -/
theorem playback_status_never_assigned :
    (∀ (kwargs : List (String × String)) (e : EventInstance),
        Event.create kwargs = .ok e → e.variant = .playback →
        e.getAttr ("status") = none ∧ e.done = false)
    ∧ ("status") ∉ fieldsOf EventVariant.playback
    ∧ ("status") ∈ classAttrsOf EventVariant.playback := by
  refine ⟨?_, by decide, by decide⟩
  intro kwargs e hok hv
  obtain ⟨w, hreg, rfl⟩ := create_ok kwargs e hok
  have hw : w = EventVariant.playback := hv
  subst hw
  have hfind : (eventInit (fieldsOf EventVariant.playback) (from_api kwargs)).find?
      (fun p => decide (p.1 = "status")) = none := by
    rw [List.find?_eq_none]
    intro p hp hps
    have h1 := eventInit_keys _ _ p hp
    have h2 : p.1 = "status" := by simpa using hps
    rw [h2] at h1
    exact (by decide : ("status") ∉ fieldsOf EventVariant.playback) h1
  have hga : EventInstance.getAttr
      ⟨EventVariant.playback, eventInit (fieldsOf EventVariant.playback) (from_api kwargs)⟩
      ("status") = none := by
    unfold EventInstance.getAttr dictGet
    rw [hfind]
    rfl
  exact ⟨hga, by simp [EventInstance.done, hga]⟩

/-- Witness for the C10 theorem: the payload
`{"eventType": "playback", "status": "done"}` still yields `status = None`
and `done = False`. -/
theorem playback_status_never_assigned_witness :
    playbackSample.getAttr ("status") = none ∧ playbackSample.done = false :=
  playback_status_never_assigned.1 [("eventType", "playback"), ("status", "done")]
    playbackSample (by decide) (by decide)

end BandwidthSdk

namespace Bandwidth

/-- C1 (code defect): with no explicit arguments while the three dashboard
environment variables are present and non-empty, `_iris_client` succeeds,
but the returned handle's credentials are the still-empty arguments, not the
environment values — the env-var branch reads the variables into discarded
locals, validates them, then builds the module state and the handle from the
defaults. -/
theorem iris_env_branch_discards_env_credentials :
    iris_client ("") ("") ("") envC1 fs0 st0
      = .ok ({ principal := some (""), secondary := some (""), tertiary := some (""),
               endpoint := some IRIS_ENDPOINT, xml := true },
             { st0 with account_id := some (""), username := some (""),
                        password := some ("") })
    ∧ envC1.bandwidth_account_id = some ("acct")
    ∧ envC1.bandwidth_username = some ("user")
    ∧ envC1.bandwidth_password = some ("pass") := by decide

/-- C2: for both resolvers, a call with exactly 1 or 2 of the three explicit
credential arguments non-empty always raises `ValueError` (the validation
kind), and a call with all 3 non-empty always succeeds with the handle's
credentials equal to the inputs exactly. -/
theorem explicit_args_all_or_nothing :
    (∀ (u t s : Option String) (env : Env) (fs : FS) (st : SdkState),
        numTruthy u t s = 1 ∨ numTruthy u t s = 2 →
        Client u t s env fs st
          = .error (.valueError (HELP_MISSING_PARAMS ++ Client_doc)))
    ∧ (∀ (u t s : Option String) (env : Env) (fs : FS) (st : SdkState),
        numTruthy u t s = 3 →
        Client u t s env fs st
          = .ok ({ principal := u, secondary := t, tertiary := s,
                   endpoint := none, xml := false },
                 { st with global_client := some ({ principal := u,
                                                    secondary := t,
                                                    tertiary := s,
                                                    endpoint := none,
                                                    xml := false } : RESTClientObject) }))
    ∧ (∀ (a b c : String) (env : Env) (fs : FS) (st : SdkState),
        numTruthyS a b c = 1 ∨ numTruthyS a b c = 2 →
        iris_client a b c env fs st
          = .error (.valueError (HELP_MISSING_PARAMS ++ iris_client_doc)))
    ∧ (∀ (a b c : String) (env : Env) (fs : FS) (st : SdkState),
        numTruthyS a b c = 3 →
        iris_client a b c env fs st
          = .ok ({ principal := some a, secondary := some b, tertiary := some c,
                   endpoint := some (st.iris_endpoint.getD IRIS_ENDPOINT), xml := true },
                 { st with account_id := some a, username := some b,
                           password := some c })) := by
  refine ⟨?_, ?_, ?_, ?_⟩
  · intro u t s env fs st h
    cases hu : truthy u <;> cases ht : truthy t <;> cases hs : truthy s <;>
      simp_all [numTruthy, Client]
  · intro u t s env fs st h
    cases hu : truthy u <;> cases ht : truthy t <;> cases hs : truthy s <;>
      simp_all [numTruthy, Client, finishClient]
  · intro a b c env fs st h
    cases ha : truthyS a <;> cases hb : truthyS b <;> cases hc : truthyS c <;>
      simp_all [numTruthyS, iris_client]
  · intro a b c env fs st h
    cases ha : truthyS a <;> cases hb : truthyS b <;> cases hc : truthyS c <;>
      simp_all [numTruthyS, iris_client, finishIris] <;>
      cases hep : st.iris_endpoint <;> simp [hep, Option.getD]

/-- Witness for the C2 theorem at concrete inputs: one non-empty argument
fails, two fail, three succeed with the inputs as credentials, for both
resolvers. -/
theorem explicit_args_all_or_nothing_witness :
    numTruthy (some ("x")) none none = 1
    ∧ Client (some ("x")) none none env0 fs0 st0
        = .error (.valueError (HELP_MISSING_PARAMS ++ Client_doc))
    ∧ numTruthy (some ("x")) (some ("y")) (some ("z")) = 3
    ∧ Client (some ("x")) (some ("y")) (some ("z")) env0 fs0 st0
        = .ok (handleXYZ, { st0 with global_client := some handleXYZ })
    ∧ numTruthyS ("a") ("b") ("") = 2
    ∧ iris_client ("a") ("b") ("") env0 fs0 st0
        = .error (.valueError (HELP_MISSING_PARAMS ++ iris_client_doc))
    ∧ numTruthyS ("a") ("b") ("c") = 3
    ∧ iris_client ("a") ("b") ("c") env0 fs0 st0
        = .ok ({ principal := some ("a"), secondary := some ("b"),
                 tertiary := some ("c"),
                 endpoint := some (st0.iris_endpoint.getD IRIS_ENDPOINT), xml := true },
               { st0 with account_id := some ("a"), username := some ("b"),
                          password := some ("c") }) :=
  ⟨by decide, explicit_args_all_or_nothing.1 _ _ _ _ _ _ (Or.inl (by decide)),
   by decide, explicit_args_all_or_nothing.2.1 _ _ _ _ _ _ (by decide),
   by decide, explicit_args_all_or_nothing.2.2.1 _ _ _ _ _ _ (Or.inr (by decide)),
   by decide, explicit_args_all_or_nothing.2.2.2 _ _ _ _ _ _ (by decide)⟩

end Bandwidth

namespace Bandwidth

/-- Counterexample to C3 as stated: with identical non-empty explicit
arguments, identical environment and identical filesystem, changing only the
module-level `bandwidth_sdk.iris_endpoint` variable changes the result of
`_iris_client` — the handle's endpoint consults module-level state even when
explicit arguments are given, so the result does not depend only on the
explicit arguments. -/
theorem iris_result_depends_on_module_endpoint :
    truthyS ("a") = true
    ∧ iris_client ("a") ("u") ("p") env0 fs0 st0
        ≠ iris_client ("a") ("u") ("p") env0 fs0
            { st0 with iris_endpoint := some ("http://alt/") } := by decide

/-- C3, amended: for every resolver call with at least one non-empty
explicit credential argument, the environment variables, both config files
and the module-level credential fallback are never consulted — the
error-or-handle outcome is the same whatever they hold; for the dashboard
client the outcome additionally depends on (only) the module-level
`iris_endpoint` override, through the returned handle's endpoint. -/
theorem explicit_args_skip_other_sources :
    (∀ (u t s : Option String) (env1 env2 : Env) (fs1 fs2 : FS)
        (st1 st2 : SdkState),
        (truthy u || truthy t || truthy s) = true →
        Except.map Prod.fst (Client u t s env1 fs1 st1)
          = Except.map Prod.fst (Client u t s env2 fs2 st2))
    ∧ (∀ (a b c : String) (env1 env2 : Env) (fs1 fs2 : FS)
        (st1 st2 : SdkState),
        (truthyS a || truthyS b || truthyS c) = true →
        st1.iris_endpoint = st2.iris_endpoint →
        Except.map Prod.fst (iris_client a b c env1 fs1 st1)
          = Except.map Prod.fst (iris_client a b c env2 fs2 st2)) := by
  constructor
  · intro u t s env1 env2 fs1 fs2 st1 st2 h
    by_cases hall : (truthy u && truthy t && truthy s) = true <;>
      simp [Client, h, hall, finishClient, Except.map]
  · intro a b c env1 env2 fs1 fs2 st1 st2 h hep
    by_cases hall : (truthyS a && truthyS b && truthyS c) = true <;>
      simp [iris_client, h, hall, finishIris, hep, Except.map]

/-- Witness for the amended C3 theorem at concrete inputs: one non-empty
argument against two very different environments and module states. -/
theorem explicit_args_skip_other_sources_witness :
    (truthy (some ("x")) || truthy none || truthy none) = true
    ∧ Except.map Prod.fst (Client (some ("x")) none none envC1 fs0 st0)
        = Except.map Prod.fst (Client (some ("x")) none none env0 fs0 st0)
    ∧ (truthyS ("a") || truthyS ("u") || truthyS ("p")) = true
    ∧ st0.iris_endpoint = ({ st0 with user_id := some ("zz") } : SdkState).iris_endpoint
    ∧ Except.map Prod.fst (iris_client ("a") ("u") ("p") envC1 fs0 st0)
        = Except.map Prod.fst (iris_client ("a") ("u") ("p") env0 fs0
            { st0 with user_id := some ("zz") }) :=
  ⟨by decide,
   explicit_args_skip_other_sources.1 (some ("x")) none none envC1 env0 fs0 fs0
     st0 st0 (by decide),
   by decide, rfl,
   explicit_args_skip_other_sources.2 ("a") ("u") ("p") envC1 env0 fs0 fs0
     st0 { st0 with user_id := some ("zz") } (by decide) rfl⟩

/-- C7: `set_client(h)` followed by `get_client()` returns exactly `h` (the
value itself — object identity is rendered as equality of the embedded
handle), leaves the state as `set_client` left it, and never invokes the
credential resolver: the outcome is identical for every ambient environment
and filesystem. -/
theorem set_then_get_returns_handle (h : RESTClientObject) (st : SdkState)
    (env : Env) (fs : FS) :
    get_client env fs (set_client (some h) st).2
      = .ok (h, (set_client (some h) st).2) := rfl

end Bandwidth

namespace Bandwidth

/-- C8: every successful telephony `Client` resolution stores the newly
constructed handle in the process-wide `_global_client`, while
`_iris_client` neither reads nor writes `_global_client`: running it on a
state whose `_global_client` has been replaced by an arbitrary `g` produces
the same outcome with `g` carried through untouched, for every combination
of arguments, environment, filesystem and module state. -/
theorem client_sets_global_iris_does_not :
    (∀ (u t s : Option String) (env : Env) (fs : FS) (st : SdkState)
        (c : RESTClientObject) (st2 : SdkState),
        Client u t s env fs st = .ok (c, st2) → st2.global_client = some c)
    ∧ (∀ (a b c : String) (env : Env) (fs : FS) (st : SdkState)
        (g : Option RESTClientObject),
        iris_client a b c env fs { st with global_client := g }
          = withG g (iris_client a b c env fs st)) := by
  constructor
  · intro u t s env fs st c st2 h
    unfold Client at h
    iterate 8 (all_goals (try split at h))
    all_goals (try simp only [finishClient] at h)
    all_goals cases h
    all_goals rfl
  · intro a b c env fs st g
    obtain ⟨g0, x1, x2, x3, x4, x5, x6, x7⟩ := st
    unfold iris_client withG finishIris
    dsimp only
    iterate 10 (all_goals (try split))
    all_goals (first | rfl | ((rename_i heq2; cases heq2) <;> rfl))

/-- Witness for the C8 theorem: a concrete successful `Client` call whose
resulting state holds the new handle as the current client. -/
theorem client_sets_global_iris_does_not_witness :
    Client (some ("x")) (some ("y")) (some ("z")) env0 fs0 st0
      = .ok (handleXYZ, { st0 with global_client := some handleXYZ })
    ∧ ({ st0 with global_client := some handleXYZ } : SdkState).global_client
        = some handleXYZ :=
  ⟨by decide,
   client_sets_global_iris_does_not.1 (some ("x")) (some ("y")) (some ("z"))
     env0 fs0 st0 handleXYZ { st0 with global_client := some handleXYZ }
     (by decide)⟩

set_option maxRecDepth 8000 in
/-- Counterexample to C9 as stated: with no explicit arguments, no
`BANDWIDTH_USER_ID`, and `BANDWIDTH_CONFIG_FILE` naming an absent file, the
resolver raises `ValueError` — the very same exception class as the
partial-explicit-arguments validation failure — so the file-missing failure
is not distinguishable from a ValidationError by kind, only by message. -/
theorem config_file_missing_is_valueerror :
    Client none none none envC9 fs0 st0
      = .error (.valueError (HELP_CONFIG_FILE_MISSING ("/etc/nope.cfg") ++ Client_doc))
    ∧ Client (some ("x")) none none envC9 fs0 st0
      = .error (.valueError (HELP_MISSING_PARAMS ++ Client_doc))
    ∧ (PyError.valueError
        (HELP_CONFIG_FILE_MISSING ("/etc/nope.cfg") ++ Client_doc)).isValueError
      = (PyError.valueError (HELP_MISSING_PARAMS ++ Client_doc)).isValueError := by
  refine ⟨?_, ?_, rfl⟩ <;> decide

/-- C9, amended: when no explicit arguments are given, the user-id
environment variable is absent, and `BANDWIDTH_CONFIG_FILE` names a path
whose file does not exist, resolution fails with a `ValueError` — the same
exception class as validation errors, not a separate file-not-found kind —
whose message includes the offending path. -/
theorem config_file_missing_error (p : String) (env : Env) (fs : FS)
    (st : SdkState)
    (hid : env.bandwidth_user_id = none)
    (hcfg : env.bandwidth_config_file = some p)
    (habs : fs.read p = .absent) :
    Client none none none env fs st
      = .error (.valueError (HELP_CONFIG_FILE_MISSING p ++ Client_doc))
    ∧ HELP_CONFIG_FILE_MISSING p
      = "The config file specified: <" ++ p
        ++ ("> could not be found. If that\x27s the wrong config file, make sure BANDWIDTH_CONFIG_FILE is set correctly or not set if you\x27re trying to use .bndsdkrc.") := by
  refine ⟨?_, rfl⟩
  simp [Client, truthy, hid, hcfg, fileExists, habs]

/-- Witness for the amended C9 theorem at a concrete environment and path. -/
theorem config_file_missing_error_witness :
    envC9.bandwidth_user_id = none
    ∧ envC9.bandwidth_config_file = some ("/etc/nope.cfg")
    ∧ fs0.read ("/etc/nope.cfg") = FileResult.absent
    ∧ Client none none none envC9 fs0 st0
        = .error (.valueError (HELP_CONFIG_FILE_MISSING ("/etc/nope.cfg") ++ Client_doc)) :=
  ⟨rfl, rfl, rfl,
   (config_file_missing_error ("/etc/nope.cfg") envC9 fs0 st0 rfl rfl rfl).1⟩

end Bandwidth
